import Mathlib

/-!
Verification of the demand-aggregation core of the `central_heating_demand`
home-automation integration.  The shallow embedding below translates the
recompute pass of `binary_sensor.py` (`_async_update_heating_demand` and
`_async_control_heater`) and of `sensor.py` (`_async_update_heating_demand`)
into executable Lean functions.  Temperatures are modelled as rationals,
the host platform's state store as a lookup function, and the two outbound
service calls of the dispatcher as boolean success oracles.
-/

/-- The host platform's raw state for one entity: the raw state string plus
the attributes the integration reads (`hvac_action`, `current_temperature`,
`temperature`, `friendly_name`), each of which may be absent. -/
structure RawState where
  state : String
  hvac_action : Option String
  current_temperature : Option Rat
  temperature : Option Rat
  friendly_name : Option String
deriving Repr, DecidableEq

/-- `hass.states.get`: lookup of an entity's latest known state. -/
abbrev StateStore := String → Option RawState

/-- The configuration of the binary sensor (`async_setup_platform` of
`binary_sensor.py`): TRV entity list, optional heater entity, minimum and
away temperatures, optional zone entity. -/
structure HeatConfig where
  trv_climate_entities : List String
  heater_entity_id : Option String
  minimum_temperature : Rat
  away_temp : Rat
  zone_entity_id : Option String
deriving Repr, DecidableEq

/-- The mutable locals of the scan loop in `_async_update_heating_demand`
of `binary_sensor.py`. -/
structure LoopState where
  demanding_trvs : Nat
  max_delta : Rat
  leader_entity_id : Option String
  leader_current_temp : Option Rat
  leader_target_temp : Option Rat
  leader_friendly_name : Option String
  valid_trv_found : Bool
deriving Repr, DecidableEq

/-- The externally visible outcome of one recompute of the binary sensor:
`is_on` plus the reported attributes. -/
structure DemandResult where
  is_heating_demanded : Bool
  max_demand_delta : Rat
  max_demand_current_temperature : Option Rat
  max_demand_target_temperature : Option Rat
  max_demand_trv_entity_id : Option String
  max_demand_trv_name : Option String
  is_away : Bool
deriving Repr, DecidableEq

/-- Python truthiness of an optional string (`if self._heater_entity_id:`,
`if valid_trv_found and leader_entity_id:`): `None` and the empty string
are falsy. -/
def optStrTruthy : Option String → Bool
  | none => false
  | some s => decide (s ≠ "")

/-- Initial loop locals of `_async_update_heating_demand` in
`binary_sensor.py`: counter 0, `max_delta = -100.0`, no leader, no valid
TRV seen. -/
def initLoopState : LoopState :=
  { demanding_trvs := 0
    max_delta := -100
    leader_entity_id := none
    leader_current_temp := none
    leader_target_temp := none
    leader_friendly_name := none
    valid_trv_found := false }

/-- One iteration of the TRV scan loop in `binary_sensor.py`
(`_async_update_heating_demand`, lines 206-250): a missing entity or a
missing current/target temperature is skipped; otherwise the delta against
the away-adjusted effective target is computed, the demand counter is
incremented when `hvac_action == "heating"` or
(`state == "heat"` and `delta > 0`), and the leader is replaced when the
delta strictly exceeds the running maximum. -/
def processTrv (away : Bool) (away_temp : Rat) (states : StateStore)
    (s : LoopState) (entity_id : String) : LoopState :=
  match states entity_id with
  | none => s
  | some st =>
    match st.current_temperature, st.temperature with
    | some cur, some tgt =>
      let effective_target := if away then away_temp else tgt
      let delta := effective_target - cur
      let demanding :=
        decide (st.hvac_action = some "heating") ||
          (decide (st.state = "heat") && decide ((0 : Rat) < delta))
      let s1 : LoopState :=
        { s with
          valid_trv_found := true
          demanding_trvs :=
            if demanding then s.demanding_trvs + 1 else s.demanding_trvs }
      if s1.max_delta < delta then
        { s1 with
          max_delta := delta
          leader_entity_id := some entity_id
          leader_current_temp := some cur
          leader_target_temp := some tgt
          leader_friendly_name := st.friendly_name }
      else s1
    | _, _ => s

/-- The full TRV scan of `_async_update_heating_demand` in
`binary_sensor.py`: fold `processTrv` over the configured entity list. -/
def scanTrvs (away : Bool) (away_temp : Rat) (states : StateStore)
    (l : List String) : LoopState :=
  l.foldl (processTrv away away_temp states) initLoopState

/-- Away-mode resolution in `binary_sensor.py` (lines 198-203): away is
true exactly when a (truthy) zone entity id is configured, its state is
present, and its raw state string equals `"0"`. -/
def awayMode (cfg : HeatConfig) (states : StateStore) : Bool :=
  match cfg.zone_entity_id with
  | none => false
  | some z =>
    if z = "" then false
    else
      match states z with
      | none => false
      | some zs => decide (zs.state = "0")

/-- One recompute of the binary sensor (`_async_update_heating_demand`,
lines 185-267): resolve away mode, scan the TRVs, and publish either the
leader's fields (with the delta clamped at zero) or the reset fields,
depending on whether a valid TRV was found and a truthy leader id was
selected. -/
def updateHeatingDemand (cfg : HeatConfig) (states : StateStore) :
    DemandResult :=
  let is_away := awayMode cfg states
  let F := scanTrvs is_away cfg.away_temp states cfg.trv_climate_entities
  let demanded := decide (0 < F.demanding_trvs)
  if F.valid_trv_found && optStrTruthy F.leader_entity_id then
    { is_heating_demanded := demanded
      max_demand_delta := max 0 F.max_delta
      max_demand_current_temperature := F.leader_current_temp
      max_demand_target_temperature := F.leader_target_temp
      max_demand_trv_entity_id := F.leader_entity_id
      max_demand_trv_name := F.leader_friendly_name
      is_away := is_away }
  else
    { is_heating_demanded := demanded
      max_demand_delta := 0
      max_demand_current_temperature := none
      max_demand_target_temperature := none
      max_demand_trv_entity_id := none
      max_demand_trv_name := none
      is_away := is_away }

/-- The heater command derived at the end of a recompute
(`binary_sensor.py`, lines 269-281): only when a truthy heater entity id is
configured; mode `"heat"` when demanding else `"off"`; target the leader's
raw target when demanding and present, otherwise the minimum temperature. -/
structure HeaterCommand where
  target_temperature : Rat
  hvac_mode : String
deriving Repr, DecidableEq

/-- Derive the heater command from a recompute result, as in
`binary_sensor.py` lines 269-281. -/
def heaterCommand (cfg : HeatConfig) (r : DemandResult) :
    Option HeaterCommand :=
  if optStrTruthy cfg.heater_entity_id then
    let mode := if r.is_heating_demanded then "heat" else "off"
    let tgt :=
      if r.is_heating_demanded then
        match r.max_demand_target_temperature with
        | some t => t
        | none => cfg.minimum_temperature
      else cfg.minimum_temperature
    some { target_temperature := tgt, hvac_mode := mode }
  else none

/-- The debounce state held by the sensor entity
(`_last_sent_target_temperature`, `_last_sent_hvac_mode`), both initially
unset. -/
structure DispatchState where
  last_sent_target_temperature : Option Rat
  last_sent_hvac_mode : Option String
deriving Repr, DecidableEq

/-- Outcome of one `_async_control_heater` pass: whether a
`set_temperature` call and a `set_hvac_mode` call were issued, and the
debounce state afterwards. -/
structure DispatchResult where
  temp_call : Bool
  mode_call : Bool
  state : DispatchState
deriving Repr, DecidableEq

/-- `_async_control_heater` of `binary_sensor.py` (lines 283-323).
The two outbound service calls may fail (the `try`/`except` blocks);
`temp_ok` and `mode_ok` are oracles for their success.  The temperature is
checked first, then the mode; each call is issued exactly when the
commanded value differs from the corresponding last-sent value, and the
last-sent value is updated only when the call succeeds. -/
def controlHeater (temp_ok mode_ok : Bool) (s : DispatchState)
    (target_temp : Rat) (target_hvac_mode : String) : DispatchResult :=
  let temp_call := decide (s.last_sent_target_temperature ≠ some target_temp)
  let s1 :=
    if temp_call && temp_ok then
      { s with last_sent_target_temperature := some target_temp }
    else s
  let mode_call := decide (s1.last_sent_hvac_mode ≠ some target_hvac_mode)
  let s2 :=
    if mode_call && mode_ok then
      { s1 with last_sent_hvac_mode := some target_hvac_mode }
    else s1
  { temp_call := temp_call, mode_call := mode_call, state := s2 }

/-- The demand test of the plain-sensor variant (`sensor.py`, lines
124-129): `hvac_action == "heating"`, or raw state `"heat"` with both
temperatures present and current strictly below target (the TRV's own
target; the plain sensor has no away mode). -/
def sensorDemandCond (st : RawState) : Bool :=
  decide (st.hvac_action = some "heating") ||
    (decide (st.state = "heat") &&
      match st.current_temperature, st.temperature with
      | some c, some t => decide (c < t)
      | _, _ => false)

/-- The scan loop of `sensor.py`'s `_async_update_heating_demand` (lines
111-133), with its `break` at the first demanding TRV: the counter is
therefore 0 or 1. -/
def sensorScan (states : StateStore) : List String → Nat
  | [] => 0
  | e :: rest =>
    match states e with
    | none => sensorScan states rest
    | some st => if sensorDemandCond st then 1 else sensorScan states rest

/-- The plain sensor's published state string (`sensor.py`, lines 134-139):
`"on"` when the demand counter is positive, else `"off"`. -/
def sensorStateStr (states : StateStore) (l : List String) : String :=
  if 0 < sensorScan states l then "on" else "off"

/-- Reference full scan for the plain sensor: count every demanding TRV
over the whole configured list, with no early exit.  Used to compare the
source's short-circuiting loop against a complete scan. -/
def sensorScanFull (states : StateStore) (l : List String) : Nat :=
  l.countP fun e =>
    match states e with
    | none => false
    | some st => sensorDemandCond st

/-- A valid TRV reading, as extracted by the body of the scan loop of
`binary_sensor.py` for an entity whose state is present with both
temperatures: the entity id, raw current and target temperatures, friendly
name, the delta against the (away-adjusted) effective target, and the
per-TRV demand flag. -/
structure TrvReading where
  entity_id : String
  current : Rat
  target : Rat
  friendly_name : Option String
  delta : Rat
  demanding : Bool
deriving Repr, DecidableEq

/-- Extract the reading of one configured TRV, exactly as the loop body of
`_async_update_heating_demand` in `binary_sensor.py` does: `none` when the
entity or either temperature is absent. -/
def readTrv (away : Bool) (away_temp : Rat) (states : StateStore)
    (entity_id : String) : Option TrvReading :=
  match states entity_id with
  | none => none
  | some st =>
    match st.current_temperature, st.temperature with
    | some cur, some tgt =>
      let delta := (if away then away_temp else tgt) - cur
      some
        { entity_id := entity_id
          current := cur
          target := tgt
          friendly_name := st.friendly_name
          delta := delta
          demanding :=
            decide (st.hvac_action = some "heating") ||
              (decide (st.state = "heat") && decide ((0 : Rat) < delta)) }
    | _, _ => none

/-- The list of valid readings of a configured TRV list, in configured
order. -/
def validReadings (away : Bool) (away_temp : Rat) (states : StateStore)
    (l : List String) : List TrvReading :=
  l.filterMap (readTrv away away_temp states)

/-- The effect of one valid reading on the loop locals — the some/some
branch of `processTrv`. -/
def stepR (s : LoopState) (r : TrvReading) : LoopState :=
  let s1 : LoopState :=
    { s with
      valid_trv_found := true
      demanding_trvs :=
        if r.demanding then s.demanding_trvs + 1 else s.demanding_trvs }
  if s1.max_delta < r.delta then
    { s1 with
      max_delta := r.delta
      leader_entity_id := some r.entity_id
      leader_current_temp := some r.current
      leader_target_temp := some r.target
      leader_friendly_name := r.friendly_name }
  else s1

/-- The leader-selection step in isolation: the running pair of
`max_delta` and the current leader reading. -/
def leadStep (p : Rat × Option TrvReading) (r : TrvReading) :
    Rat × Option TrvReading :=
  if p.1 < r.delta then (r.delta, some r) else p

/-- Leader selection folded over a list of readings. -/
def leadFold (p : Rat × Option TrvReading) (rs : List TrvReading) :
    Rat × Option TrvReading :=
  rs.foldl leadStep p

/-- The leader the binary sensor selects from a list of valid readings:
the fold started from the sentinel `max_delta = -100` with no leader. -/
def selectLeader (rs : List TrvReading) : Option TrvReading :=
  (leadFold (-100, none) rs).2

/-- `r` has a delta at least as large as every delta in `rs`. -/
def isTop (rs : List TrvReading) (r : TrvReading) : Bool :=
  rs.all fun x => decide (x.delta ≤ r.delta)

/-- The earliest reading whose delta dominates every delta of the list:
the "first strictly-greatest" reading. -/
def firstMax (rs : List TrvReading) : Option TrvReading :=
  rs.find? (isTop rs)

/-- Interpret a demand count, a valid flag, and a leader-selection pair as
loop locals. -/
def toLoop (d : Nat) (v : Bool) (p : Rat × Option TrvReading) : LoopState :=
  { demanding_trvs := d
    max_delta := p.1
    leader_entity_id := p.2.map TrvReading.entity_id
    leader_current_temp := p.2.map TrvReading.current
    leader_target_temp := p.2.map TrvReading.target
    leader_friendly_name := p.2.bind TrvReading.friendly_name
    valid_trv_found := v }

/-- First-some choice on options. -/
def optOr (o fallback : Option TrvReading) : Option TrvReading :=
  match o with
  | some x => some x
  | none => fallback

/-- Fixture: a single-TRV configuration with no heater and no zone. -/
def cfgC1 : HeatConfig :=
  { trv_climate_entities := ["climate.trv1"]
    heater_entity_id := none
    minimum_temperature := 5
    away_temp := 12
    zone_entity_id := none }

/-- Fixture: the TRV reports `hvac_action = "heating"` but no current
temperature. -/
def storeC1 : StateStore := fun e =>
  if e = "climate.trv1" then
    some
      { state := "heat"
        hvac_action := some "heating"
        current_temperature := none
        temperature := some 21
        friendly_name := some "TRV 1" }
  else none

/-- Fixture: the TRV reports `hvac_action = "heating"` with both
temperatures present and a raw state that is not `"heat"`. -/
def storeW1 : StateStore := fun e =>
  if e = "climate.trv1" then
    some
      { state := "auto"
        hvac_action := some "heating"
        current_temperature := some 25
        temperature := some 21
        friendly_name := some "TRV 1" }
  else none

/-- Fixture: a single-TRV configuration for the sentinel-delta edge case. -/
def cfgC2 : HeatConfig :=
  { trv_climate_entities := ["climate.t2"]
    heater_entity_id := none
    minimum_temperature := 5
    away_temp := 12
    zone_entity_id := none }

/-- Fixture: a valid TRV whose delta is exactly the sentinel `-100`
(target 1, current 101). -/
def storeC2 : StateStore := fun e =>
  if e = "climate.t2" then
    some
      { state := "heat"
        hvac_action := some "idle"
        current_temperature := some 101
        temperature := some 1
        friendly_name := some "T2" }
  else none

/-- Fixture: two valid TRVs with deltas 2 and 1. -/
def cfgW2 : HeatConfig :=
  { trv_climate_entities := ["climate.wa", "climate.wb"]
    heater_entity_id := none
    minimum_temperature := 5
    away_temp := 12
    zone_entity_id := none }

/-- Fixture state store for `cfgW2`. -/
def storeW2 : StateStore := fun e =>
  if e = "climate.wa" then
    some
      { state := "heat"
        hvac_action := some "idle"
        current_temperature := some 18
        temperature := some 20
        friendly_name := some "WA" }
  else if e = "climate.wb" then
    some
      { state := "heat"
        hvac_action := some "idle"
        current_temperature := some 19
        temperature := some 20
        friendly_name := some "WB" }
  else none

/-- Fixture: a single-TRV configuration whose delta is below the
sentinel. -/
def cfgC3 : HeatConfig :=
  { trv_climate_entities := ["climate.t3"]
    heater_entity_id := none
    minimum_temperature := 5
    away_temp := 12
    zone_entity_id := none }

/-- Fixture: a valid TRV with delta `-150` (target 1, current 151). -/
def storeC3 : StateStore := fun e =>
  if e = "climate.t3" then
    some
      { state := "heat"
        hvac_action := some "idle"
        current_temperature := some 151
        temperature := some 1
        friendly_name := some "T3" }
  else none

/-- Fixture: three TRVs with deltas 2, 2, 3 in configured order. -/
def cfgW3 : HeatConfig :=
  { trv_climate_entities := ["climate.a", "climate.b", "climate.c"]
    heater_entity_id := none
    minimum_temperature := 5
    away_temp := 12
    zone_entity_id := none }

/-- Fixture state store for `cfgW3`: deltas 2, 2, 3. -/
def storeW3 : StateStore := fun e =>
  if e = "climate.a" then
    some
      { state := "heat"
        hvac_action := some "idle"
        current_temperature := some 18
        temperature := some 20
        friendly_name := some "A" }
  else if e = "climate.b" then
    some
      { state := "heat"
        hvac_action := some "idle"
        current_temperature := some 18
        temperature := some 20
        friendly_name := some "B" }
  else if e = "climate.c" then
    some
      { state := "heat"
        hvac_action := some "idle"
        current_temperature := some 17
        temperature := some 20
        friendly_name := some "C" }
  else none

/-- Fixture: two TRVs with equal deltas 3, 3 in configured order. -/
def cfgC4 : HeatConfig :=
  { trv_climate_entities := ["climate.p", "climate.q"]
    heater_entity_id := none
    minimum_temperature := 5
    away_temp := 12
    zone_entity_id := none }

/-- Fixture state store for `cfgC4`: both TRVs have delta 3. -/
def storeC4 : StateStore := fun e =>
  if e = "climate.p" then
    some
      { state := "heat"
        hvac_action := some "idle"
        current_temperature := some 17
        temperature := some 20
        friendly_name := some "P" }
  else if e = "climate.q" then
    some
      { state := "heat"
        hvac_action := some "idle"
        current_temperature := some 17
        temperature := some 20
        friendly_name := some "Q" }
  else none

/-- Fixture: a configuration with a zone entity for the away-mode
scenario. -/
def cfgA : HeatConfig :=
  { trv_climate_entities := ["climate.trva"]
    heater_entity_id := none
    minimum_temperature := 5
    away_temp := 12
    zone_entity_id := some "sensor.zone" }

/-- Fixture: zone state `"0"` (away) with a TRV at 15 targeting 21. -/
def storeA : StateStore := fun e =>
  if e = "sensor.zone" then
    some
      { state := "0"
        hvac_action := none
        current_temperature := none
        temperature := none
        friendly_name := none }
  else if e = "climate.trva" then
    some
      { state := "heat"
        hvac_action := some "idle"
        current_temperature := some 15
        temperature := some 21
        friendly_name := some "TRV A" }
  else none

/-- Fixture: the spec's heater scenario configuration (heater configured,
two TRVs). -/
def cfgH : HeatConfig :=
  { trv_climate_entities := ["climate.trv1", "climate.trv2"]
    heater_entity_id := some "climate.boiler"
    minimum_temperature := 5
    away_temp := 12
    zone_entity_id := none }

/-- Fixture: trv1 at 18 targeting 21 and heating; trv2 at 20 targeting 20
and idle. -/
def storeH : StateStore := fun e =>
  if e = "climate.trv1" then
    some
      { state := "heat"
        hvac_action := some "heating"
        current_temperature := some 18
        temperature := some 21
        friendly_name := some "TRV 1" }
  else if e = "climate.trv2" then
    some
      { state := "heat"
        hvac_action := some "idle"
        current_temperature := some 20
        temperature := some 20
        friendly_name := some "TRV 2" }
  else none

/-- Fixture: two TRVs with equal deltas 2, 2 in configured order. -/
def storeW4 : StateStore := fun e =>
  if e = "climate.x" then
    some
      { state := "heat"
        hvac_action := some "idle"
        current_temperature := some 18
        temperature := some 20
        friendly_name := some "X" }
  else if e = "climate.y" then
    some
      { state := "heat"
        hvac_action := some "idle"
        current_temperature := some 18
        temperature := some 20
        friendly_name := some "Y" }
  else none

/-- `processTrv` skips missing readings and otherwise acts as `stepR` on
the extracted reading. -/
theorem processTrv_eq (away : Bool) (aw : Rat) (states : StateStore)
    (s : LoopState) (e : String) :
    processTrv away aw states s e =
      match readTrv away aw states e with
      | none => s
      | some r => stepR s r := by
  unfold processTrv readTrv
  cases hs : states e with
  | none => rfl
  | some st =>
    obtain ⟨s0, a0, c0, t0, f0⟩ := st
    cases c0 <;> cases t0 <;> rfl

/-- Folding `processTrv` over entity ids equals folding `stepR` over the
extracted valid readings. -/
theorem foldl_processTrv_eq (away : Bool) (aw : Rat) (states : StateStore) :
    ∀ (l : List String) (s : LoopState),
      l.foldl (processTrv away aw states) s =
        (validReadings away aw states l).foldl stepR s := by
  intro l
  induction l with
  | nil => intro s; rfl
  | cons e l ih =>
    intro s
    rw [List.foldl_cons, processTrv_eq]
    unfold validReadings
    rw [List.filterMap_cons]
    cases h : readTrv away aw states e with
    | none => exact ih s
    | some r => rw [List.foldl_cons]; exact ih (stepR s r)

/-- `stepR` on abstracted loop locals is `leadStep` plus counter and
flag updates. -/
theorem stepR_toLoop (d : Nat) (v : Bool) (p : Rat × Option TrvReading)
    (r : TrvReading) :
    stepR (toLoop d v p) r =
      toLoop (if r.demanding then d + 1 else d) true (leadStep p r) := by
  unfold stepR toLoop leadStep
  by_cases h : p.1 < r.delta
  · simp [h]
  · simp [h]

/-- Folding `stepR` from abstracted locals: the counter accumulates the
demanding readings, the valid flag records non-emptiness, and the leader
pair is `leadFold`. -/
theorem foldl_stepR_toLoop :
    ∀ (rs : List TrvReading) (d : Nat) (v : Bool)
      (p : Rat × Option TrvReading),
      rs.foldl stepR (toLoop d v p) =
        toLoop (d + rs.countP TrvReading.demanding) (v || !rs.isEmpty)
          (leadFold p rs) := by
  intro rs
  induction rs with
  | nil => intro d v p; simp [leadFold]
  | cons r rs ih =>
    intro d v p
    rw [List.foldl_cons, stepR_toLoop, ih]
    have hd : (if r.demanding then d + 1 else d) + rs.countP TrvReading.demanding
        = d + (r :: rs).countP TrvReading.demanding := by
      rw [List.countP_cons]
      cases hr : r.demanding with
      | true => simp [hr]; omega
      | false => simp [hr]
    have hv : (true || !rs.isEmpty) = (v || !(r :: rs).isEmpty) := by simp
    rw [hd, hv]
    rfl

/-- Characterisation of the whole TRV scan in terms of the valid readings:
demand count, valid flag, and leader fold. -/
theorem scanTrvs_eq (away : Bool) (aw : Rat) (states : StateStore)
    (l : List String) :
    scanTrvs away aw states l =
      toLoop ((validReadings away aw states l).countP TrvReading.demanding)
        (!(validReadings away aw states l).isEmpty)
        (leadFold (-100, none) (validReadings away aw states l)) := by
  unfold scanTrvs
  rw [foldl_processTrv_eq]
  have h0 : initLoopState = toLoop 0 false (-100, none) := rfl
  rw [h0, foldl_stepR_toLoop]
  simp

/-- `isTop` unfolded to a proposition. -/
theorem isTop_iff (rs : List TrvReading) (r : TrvReading) :
    isTop rs r = true ↔ ∀ x ∈ rs, x.delta ≤ r.delta := by
  unfold isTop
  simp [List.all_eq_true]

/-- `optOr` on a present option. -/
theorem optOr_some (x : TrvReading) (ld : Option TrvReading) :
    optOr (some x) ld = some x := rfl

/-- `optOr` on an absent option. -/
theorem optOr_none (ld : Option TrvReading) : optOr none ld = ld := rfl

/-- `optOr` with an absent fallback is the identity. -/
theorem optOr_none_right (o : Option TrvReading) : optOr o none = o := by
  cases o <;> rfl

/-- `find?` only depends on the predicate's values on the list. -/
theorem find?_congr {α : Type} (p q : α → Bool) :
    ∀ (l : List α), (∀ x ∈ l, p x = q x) → l.find? p = l.find? q := by
  intro l
  induction l with
  | nil => intro _; rfl
  | cons a l ih =>
    intro h
    have ha := h a (List.mem_cons_self a l)
    cases hq : q a with
    | true =>
      rw [List.find?_cons_of_pos _ (by rw [ha, hq]), List.find?_cons_of_pos _ hq]
    | false =>
      rw [List.find?_cons_of_neg _ (by simp [ha, hq]),
        List.find?_cons_of_neg _ (by simp [hq])]
      exact ih fun x hx => h x (List.mem_cons_of_mem a hx)

/-- Every nonempty list of readings has an element whose delta dominates
the whole list. -/
theorem exists_isTop :
    ∀ (rs : List TrvReading), rs ≠ [] → ∃ r ∈ rs, isTop rs r = true := by
  intro rs
  induction rs with
  | nil => intro h; exact absurd rfl h
  | cons a l ih =>
    intro _
    by_cases hl : l = []
    · subst hl
      exact ⟨a, List.mem_cons_self a [], by simp [isTop]⟩
    · obtain ⟨r, hr, htop⟩ := ih hl
      rw [isTop_iff] at htop
      by_cases har : a.delta ≤ r.delta
      · refine ⟨r, List.mem_cons_of_mem a hr, ?_⟩
        rw [isTop_iff]
        intro x hx
        rcases List.mem_cons.mp hx with hx | hx
        · exact hx ▸ har
        · exact htop x hx
      · refine ⟨a, List.mem_cons_self a l, ?_⟩
        rw [isTop_iff]
        intro x hx
        rcases List.mem_cons.mp hx with hx | hx
        · exact hx ▸ le_refl _
        · exact le_trans (htop x hx) (le_of_not_le har)

/-- Characterisation of the leader half of the fold: starting from
threshold `m` and incumbent `ld`, the selected leader is the earliest
reading whose delta both exceeds `m` and dominates the whole list,
falling back to `ld`. -/
theorem leadFold_snd (rs : List TrvReading) :
    ∀ (m : Rat) (ld : Option TrvReading),
      (leadFold (m, ld) rs).2 =
        optOr (rs.find? fun r => decide (m < r.delta) && isTop rs r) ld := by
  induction rs with
  | nil => intro m ld; rfl
  | cons a rs ih =>
    intro m ld
    have hfold : leadFold (m, ld) (a :: rs) = leadFold (leadStep (m, ld) a) rs :=
      rfl
    rw [hfold]
    by_cases ha : m < a.delta
    · have hstep : leadStep (m, ld) a = (a.delta, some a) := by
        unfold leadStep
        exact if_pos ha
      rw [hstep, ih]
      by_cases htop : ∀ x ∈ rs, x.delta ≤ a.delta
      · have hPa : (decide (m < a.delta) && isTop (a :: rs) a) = true := by
          rw [Bool.and_eq_true, decide_eq_true_eq, isTop_iff]
          refine ⟨ha, fun x hx => ?_⟩
          rcases List.mem_cons.mp hx with hx | hx
          · exact hx ▸ le_refl _
          · exact htop x hx
        have hfind :
            List.find? (fun r => decide (m < r.delta) && isTop (a :: rs) r)
              (a :: rs) = some a := List.find?_cons_of_pos rs hPa
        rw [hfind, optOr_some]
        have hnone :
            (rs.find? fun r => decide (a.delta < r.delta) && isTop rs r) = none := by
          rw [List.find?_eq_none]
          intro x hx
          rw [Bool.and_eq_true, decide_eq_true_eq]
          rintro ⟨hlt, -⟩
          exact absurd hlt (not_lt.mpr (htop x hx))
        rw [hnone, optOr_none]
      · push_neg at htop
        obtain ⟨y, hy, hylt⟩ := htop
        have hPa : (decide (m < a.delta) && isTop (a :: rs) a) = false := by
          have h1 : isTop (a :: rs) a = false := by
            rw [Bool.eq_false_iff]
            intro hT
            rw [isTop_iff] at hT
            exact absurd (hT y (List.mem_cons_of_mem a hy)) (not_le.mpr hylt)
          rw [h1, Bool.and_false]
        have hfind :
            List.find? (fun r => decide (m < r.delta) && isTop (a :: rs) r)
              (a :: rs)
              = List.find? (fun r => decide (m < r.delta) && isTop (a :: rs) r)
                rs :=
          List.find?_cons_of_neg rs (by simp [hPa])
        rw [hfind]
        have hcong :
            rs.find? (fun r => decide (m < r.delta) && isTop (a :: rs) r)
              = rs.find? (fun r => decide (a.delta < r.delta) && isTop rs r) := by
          apply find?_congr
          intro x hx
          by_cases hxt : isTop rs x = true
          · have hax : a.delta < x.delta :=
              lt_of_lt_of_le hylt ((isTop_iff rs x).mp hxt y hy)
            have h1 : isTop (a :: rs) x = true := by
              rw [isTop_iff]
              intro z hz
              rcases List.mem_cons.mp hz with hz | hz
              · exact hz ▸ le_of_lt hax
              · exact (isTop_iff rs x).mp hxt z hz
            have h2 : m < x.delta := lt_trans ha hax
            simp [h1, h2, hxt, hax]
          · have hxf : isTop rs x = false := Bool.eq_false_iff.mpr hxt
            have h1 : isTop (a :: rs) x = false := by
              rw [Bool.eq_false_iff]
              intro hT
              apply hxt
              rw [isTop_iff] at hT ⊢
              exact fun z hz => hT z (List.mem_cons_of_mem a hz)
            simp [h1, hxf]
        rw [hcong]
        have hne : rs ≠ [] := fun h => absurd (h ▸ hy) (List.not_mem_nil y)
        obtain ⟨r, hr, hrt⟩ := exists_isTop rs hne
        have hQr : (decide (a.delta < r.delta) && isTop rs r) = true := by
          have : a.delta < r.delta :=
            lt_of_lt_of_le hylt ((isTop_iff rs r).mp hrt y hy)
          simp [this, hrt]
        have hsome :
            (rs.find? fun r => decide (a.delta < r.delta) && isTop rs r).isSome := by
          rw [List.find?_isSome]
          exact ⟨r, hr, hQr⟩
        obtain ⟨w, hw⟩ := Option.isSome_iff_exists.mp hsome
        rw [hw, optOr_some, optOr_some]
    · have hstep : leadStep (m, ld) a = (m, ld) := by
        unfold leadStep
        exact if_neg ha
      rw [hstep, ih]
      have hPa : (decide (m < a.delta) && isTop (a :: rs) a) = false := by
        simp [ha]
      have hfind :
          List.find? (fun r => decide (m < r.delta) && isTop (a :: rs) r)
            (a :: rs)
            = List.find? (fun r => decide (m < r.delta) && isTop (a :: rs) r)
              rs :=
        List.find?_cons_of_neg rs (by simp [hPa])
      rw [hfind]
      have hcong :
          rs.find? (fun r => decide (m < r.delta) && isTop (a :: rs) r)
            = rs.find? (fun r => decide (m < r.delta) && isTop rs r) := by
        apply find?_congr
        intro x hx
        by_cases hmx : m < x.delta
        · have hax : a.delta ≤ x.delta := le_trans (le_of_not_lt ha) (le_of_lt hmx)
          have h1 : isTop (a :: rs) x = isTop rs x := by
            unfold isTop
            rw [List.all_cons]
            simp [hax]
          rw [h1]
        · simp [hmx]
      rw [hcong]

/-- The leader selected from the sentinel start is the earliest reading
whose delta exceeds `-100` and dominates the list. -/
theorem selectLeader_find (rs : List TrvReading) :
    selectLeader rs =
      rs.find? fun r => decide ((-100 : Rat) < r.delta) && isTop rs r := by
  unfold selectLeader
  rw [leadFold_snd, optOr_none_right]

/-- As soon as one delta exceeds the sentinel, the selected leader is the
first strictly-greatest reading. -/
theorem selectLeader_eq_firstMax (rs : List TrvReading)
    (h : ∃ r ∈ rs, (-100 : Rat) < r.delta) :
    selectLeader rs = firstMax rs := by
  rw [selectLeader_find]
  unfold firstMax
  apply find?_congr
  intro x _
  obtain ⟨y, hy, hylt⟩ := h
  by_cases hxt : isTop rs x = true
  · have hx100 : (-100 : Rat) < x.delta :=
      lt_of_lt_of_le hylt ((isTop_iff rs x).mp hxt y hy)
    simp [hx100, hxt]
  · have hxf : isTop rs x = false := Bool.eq_false_iff.mpr hxt
    simp [hxf]

/-- A nonempty list of readings always has a first strictly-greatest
reading. -/
theorem firstMax_isSome (rs : List TrvReading) (h : rs ≠ []) :
    (firstMax rs).isSome := by
  unfold firstMax
  rw [List.find?_isSome]
  obtain ⟨r, hr, hrt⟩ := exists_isTop rs h
  exact ⟨r, hr, hrt⟩

/-- The first strictly-greatest reading belongs to the list. -/
theorem firstMax_mem {rs : List TrvReading} {r : TrvReading}
    (h : firstMax rs = some r) : r ∈ rs :=
  List.mem_of_find?_eq_some h

/-- The first strictly-greatest reading dominates every delta of the
list. -/
theorem firstMax_top {rs : List TrvReading} {r : TrvReading}
    (h : firstMax rs = some r) : ∀ x ∈ rs, x.delta ≤ r.delta := by
  have := List.find?_some h
  exact (isTop_iff rs r).mp this

/-- Along the fold, `max_delta` always equals the delta of the current
leader, as long as that held initially. -/
theorem leadFold_fst_of_snd :
    ∀ (rs : List TrvReading) (p : Rat × Option TrvReading),
      (∀ r0, p.2 = some r0 → p.1 = r0.delta) →
      ∀ r, (leadFold p rs).2 = some r → (leadFold p rs).1 = r.delta := by
  intro rs
  induction rs with
  | nil => intro p hp r h; exact hp r h
  | cons a rs ih =>
    intro p hp r h
    have hfold : leadFold p (a :: rs) = leadFold (leadStep p a) rs := rfl
    rw [hfold] at h ⊢
    refine ih (leadStep p a) ?_ r h
    intro r0 h0
    unfold leadStep at h0 ⊢
    by_cases hc : p.1 < a.delta
    · rw [if_pos hc] at h0 ⊢
      obtain rfl : a = r0 := Option.some.inj h0
      rfl
    · rw [if_neg hc] at h0 ⊢
      exact hp r0 h0

/-- `find?` returns the element at index `i` when the predicate fails
strictly before `i` and holds at `i`. -/
theorem find?_eq_get {α : Type} (p : α → Bool) :
    ∀ (l : List α) (i : Nat) (hi : i < l.length),
      p (l.get ⟨i, hi⟩) = true →
      (∀ j (hj : j < l.length), j < i → p (l.get ⟨j, hj⟩) = false) →
      l.find? p = some (l.get ⟨i, hi⟩) := by
  intro l
  induction l with
  | nil => intro i hi; exact absurd hi (Nat.not_lt_zero i)
  | cons a l ih =>
    intro i hi hp hprev
    cases i with
    | zero => exact List.find?_cons_of_pos l hp
    | succ k =>
      have hk : k < l.length := Nat.lt_of_succ_lt_succ hi
      have ha : p a = false :=
        hprev 0 (Nat.succ_pos _) (Nat.succ_pos k)
      have hneg : List.find? p (a :: l) = List.find? p l :=
        List.find?_cons_of_neg l (by simp [ha])
      rw [hneg]
      have hget : (a :: l).get ⟨k + 1, hi⟩ = l.get ⟨k, hk⟩ := rfl
      rw [hget] at hp ⊢
      refine ih k hk hp ?_
      intro j hj hjk
      have hj1 : j + 1 < (a :: l).length := Nat.succ_lt_succ hj
      have := hprev (j + 1) hj1 (Nat.succ_lt_succ hjk)
      exact this

/-- The published demand flag is exactly "the scan's demand counter is
positive", in both branches of the final `if`. -/
theorem updateHeatingDemand_demanded (cfg : HeatConfig) (states : StateStore) :
    (updateHeatingDemand cfg states).is_heating_demanded =
      decide (0 < (scanTrvs (awayMode cfg states) cfg.away_temp states
        cfg.trv_climate_entities).demanding_trvs) := by
  simp only [updateHeatingDemand]
  split <;> rfl

/-- The published away flag is the resolved away mode, in both branches of
the final `if`. -/
theorem updateHeatingDemand_is_away (cfg : HeatConfig) (states : StateStore) :
    (updateHeatingDemand cfg states).is_away = awayMode cfg states := by
  simp only [updateHeatingDemand]
  split <;> rfl

/-- Claim C5: after every recompute of the binary-sensor aggregator, the
reported `max_demand_delta` is at least 0, for every configuration and
state store. -/
theorem max_demand_delta_nonneg (cfg : HeatConfig) (states : StateStore) :
    0 ≤ (updateHeatingDemand cfg states).max_demand_delta := by
  simp only [updateHeatingDemand]
  split
  · exact le_max_left 0 _
  · exact le_refl 0

/-- Claim C1, counterexample: a TRV whose state is present with
`hvac_action = "heating"` but no current temperature is skipped before the
demand check, so `is_demanding` is false — against the claim's "including
when current_temperature or target_temperature is absent". -/
theorem heating_action_missing_temp_cex :
    (storeC1 "climate.trv1").isSome = true ∧
    ((storeC1 "climate.trv1").map RawState.hvac_action)
      = some (some "heating") ∧
    ((storeC1 "climate.trv1").bind RawState.current_temperature) = none ∧
    (updateHeatingDemand cfgC1 storeC1).is_heating_demanded = false := by
  decide

/-- Claim C1 (amended): if any configured TRV whose state is present and
whose current and target temperatures are both present has
`hvac_action = "heating"`, then `is_demanding` is true, regardless of the
TRV's raw state or of the temperature values. -/
theorem heating_action_demands (cfg : HeatConfig) (states : StateStore)
    (e : String) (st : RawState) (c t : Rat)
    (he : e ∈ cfg.trv_climate_entities)
    (hst : states e = some st)
    (hact : st.hvac_action = some "heating")
    (hc : st.current_temperature = some c)
    (ht : st.temperature = some t) :
    (updateHeatingDemand cfg states).is_heating_demanded = true := by
  rw [updateHeatingDemand_demanded, decide_eq_true_eq, scanTrvs_eq]
  simp only [toLoop]
  rw [List.countP_pos_iff]
  obtain ⟨s0, a0, c0, t0, f0⟩ := st
  subst hact hc ht
  have hread : readTrv (awayMode cfg states) cfg.away_temp states e =
      some
        { entity_id := e
          current := c
          target := t
          friendly_name := f0
          delta := (if awayMode cfg states then cfg.away_temp else t) - c
          demanding := true } := by
    unfold readTrv
    rw [hst]
    simp
  refine ⟨_, List.mem_filterMap.mpr ⟨e, he, hread⟩, rfl⟩

/-- Claim C1 (amended), witness at a concrete input: one TRV, raw state
`"auto"`, current 25 above target 21, `hvac_action = "heating"` ⇒
demand. -/
theorem heating_action_demands_witness :
    ("climate.trv1" ∈ cfgC1.trv_climate_entities) ∧
    (updateHeatingDemand cfgC1 storeW1).is_heating_demanded = true :=
  ⟨by decide,
    heating_action_demands cfgC1 storeW1 "climate.trv1"
      { state := "auto"
        hvac_action := some "heating"
        current_temperature := some 25
        temperature := some 21
        friendly_name := some "TRV 1" }
      25 21 (by decide) (by decide) rfl rfl rfl⟩

/-- The plain sensor's per-TRV demand test, as a proposition. -/
theorem sensorDemandCond_iff (st : RawState) :
    sensorDemandCond st = true ↔
      st.hvac_action = some "heating" ∨
        (st.state = "heat" ∧ ∃ c t, st.current_temperature = some c ∧
          st.temperature = some t ∧ c < t) := by
  unfold sensorDemandCond
  obtain ⟨s0, a0, c0, t0, f0⟩ := st
  cases c0 <;> cases t0 <;> simp

/-- The plain sensor's short-circuiting counter is positive exactly when
some configured entity is present and demanding. -/
theorem sensorScan_pos_iff (states : StateStore) :
    ∀ l : List String,
      0 < sensorScan states l ↔
        ∃ e ∈ l, ∃ st, states e = some st ∧ sensorDemandCond st = true := by
  intro l
  induction l with
  | nil => simp [sensorScan]
  | cons e l ih =>
    rw [show sensorScan states (e :: l) =
        (match states e with
          | none => sensorScan states l
          | some st =>
            if sensorDemandCond st then 1 else sensorScan states l) from rfl]
    cases hs : states e with
    | none =>
      constructor
      · intro h
        obtain ⟨x, hx, hst⟩ := ih.mp h
        exact ⟨x, List.mem_cons_of_mem e hx, hst⟩
      · rintro ⟨x, hx, st, hst, hd⟩
        rcases List.mem_cons.mp hx with rfl | hx
        · rw [hs] at hst
          cases hst
        · exact ih.mpr ⟨x, hx, st, hst, hd⟩
    | some st =>
      have hred : (match some st with
          | none => sensorScan states l
          | some st =>
            if sensorDemandCond st then 1 else sensorScan states l)
          = if sensorDemandCond st then 1 else sensorScan states l := rfl
      rw [hred]
      by_cases hd : sensorDemandCond st = true
      · rw [if_pos hd]
        constructor
        · intro _
          exact ⟨e, List.mem_cons_self e l, st, hs, hd⟩
        · intro _
          exact Nat.one_pos
      · rw [if_neg hd]
        constructor
        · intro h
          obtain ⟨x, hx, st', hst', hd'⟩ := ih.mp h
          exact ⟨x, List.mem_cons_of_mem e hx, st', hst', hd'⟩
        · rintro ⟨x, hx, st', hst', hd'⟩
          rcases List.mem_cons.mp hx with rfl | hx
          · rw [hs] at hst'
            obtain rfl := Option.some.inj hst'
            exact absurd hd' hd
          · exact ih.mpr ⟨x, hx, st', hst', hd'⟩

/-- Claim C9: the plain-sensor state is `"on"` exactly when some
configured TRV whose state is present has `hvac_action = "heating"`, or
raw state `"heat"` with both temperatures present and current strictly
below the TRV's own target (no away-mode adjustment exists in this
variant). -/
theorem sensor_on_iff (states : StateStore) (l : List String) :
    sensorStateStr states l = "on" ↔
      ∃ e ∈ l, ∃ st, states e = some st ∧
        (st.hvac_action = some "heating" ∨
          (st.state = "heat" ∧ ∃ c t, st.current_temperature = some c ∧
            st.temperature = some t ∧ c < t)) := by
  unfold sensorStateStr
  by_cases h : 0 < sensorScan states l
  · rw [if_pos h]
    constructor
    · intro _
      obtain ⟨e, he, st, hst, hd⟩ := (sensorScan_pos_iff states l).mp h
      exact ⟨e, he, st, hst, (sensorDemandCond_iff st).mp hd⟩
    · intro _
      rfl
  · rw [if_neg h]
    constructor
    · intro hcontra
      exact absurd hcontra (by decide)
    · rintro ⟨e, he, st, hst, hd⟩
      exact absurd
        ((sensorScan_pos_iff states l).mpr
          ⟨e, he, st, hst, (sensorDemandCond_iff st).mpr hd⟩) h

/-- Claim C10: the plain sensor's short-circuiting scan and a full scan
that counts every demanding TRV agree on whether the demand count is
positive, for every state store and configured list. -/
theorem sensorScan_break_iff_full (states : StateStore) (l : List String) :
    0 < sensorScan states l ↔ 0 < sensorScanFull states l := by
  rw [sensorScan_pos_iff]
  unfold sensorScanFull
  rw [List.countP_pos_iff]
  constructor
  · rintro ⟨e, he, st, hst, hd⟩
    refine ⟨e, he, ?_⟩
    rw [hst]
    exact hd
  · rintro ⟨e, he, hp⟩
    cases hs : states e with
    | none =>
      rw [hs] at hp
      cases hp
    | some st =>
      rw [hs] at hp
      exact ⟨e, he, st, hs, hp⟩

/-- Claim C6: the reported away flag is the resolved away mode; away mode
is true exactly when a (nonempty) zone entity id is configured and that
entity's raw state string equals `"0"`; and when away is active, every
valid TRV's delta is computed against `away_temp` instead of the TRV's own
target. -/
theorem away_mode_correct (cfg : HeatConfig) (states : StateStore) :
    ((updateHeatingDemand cfg states).is_away = awayMode cfg states) ∧
    (awayMode cfg states = true ↔
      ∃ z, cfg.zone_entity_id = some z ∧ z ≠ "" ∧
        ∃ zs, states z = some zs ∧ zs.state = "0") ∧
    (awayMode cfg states = true →
      ∀ r ∈ validReadings (awayMode cfg states) cfg.away_temp states
          cfg.trv_climate_entities,
        r.delta = cfg.away_temp - r.current) := by
  refine ⟨updateHeatingDemand_is_away cfg states, ?_, ?_⟩
  · unfold awayMode
    cases hz : cfg.zone_entity_id with
    | none => simp
    | some z =>
      have hred : (match some z with
          | none => false
          | some z =>
            if z = "" then false
            else
              match states z with
              | none => false
              | some zs => decide (zs.state = "0"))
          = (if z = "" then false
            else
              match states z with
              | none => false
              | some zs => decide (zs.state = "0")) := rfl
      rw [hred]
      by_cases hze : z = ""
      · subst hze
        simp
      · rw [if_neg hze]
        cases hs : states z with
        | none => simp [hze, hs]
        | some zs => simp [hze, hs]
  · intro haway r hr
    unfold validReadings at hr
    obtain ⟨e, he, hread⟩ := List.mem_filterMap.mp hr
    unfold readTrv at hread
    cases hs : states e with
    | none =>
      rw [hs] at hread
      cases hread
    | some st =>
      rw [hs] at hread
      obtain ⟨s0, a0, c0, t0, f0⟩ := st
      cases c0 with
      | none => cases hread
      | some c =>
        cases t0 with
        | none => cases hread
        | some t =>
          obtain rfl := Option.some.inj hread
          simp [haway]

/-- Claim C6, witness at a concrete input: zone state `"0"` makes away
active, and the single valid TRV's delta is `away_temp - current`. -/
theorem away_mode_correct_witness :
    awayMode cfgA storeA = true ∧
    ∀ r ∈ validReadings (awayMode cfgA storeA) cfgA.away_temp storeA
        cfgA.trv_climate_entities,
      r.delta = cfgA.away_temp - r.current :=
  ⟨by decide, (away_mode_correct cfgA storeA).2.2 (by decide)⟩

/-- Claim C7: with a (nonempty) heater entity configured, the derived
command's mode is `"heat"` when demanding and `"off"` otherwise, and its
target is the leader's raw target when demanding and present, otherwise
the minimum temperature. -/
theorem heater_command_spec (cfg : HeatConfig) (states : StateStore)
    (hid : String) (hcfg : cfg.heater_entity_id = some hid)
    (hne : hid ≠ "") :
    ∃ cmd, heaterCommand cfg (updateHeatingDemand cfg states) = some cmd ∧
      cmd.hvac_mode =
        (if (updateHeatingDemand cfg states).is_heating_demanded then "heat"
          else "off") ∧
      (∀ t, (updateHeatingDemand cfg states).is_heating_demanded = true →
        (updateHeatingDemand cfg states).max_demand_target_temperature
          = some t →
        cmd.target_temperature = t) ∧
      ((updateHeatingDemand cfg states).is_heating_demanded = false →
        cmd.target_temperature = cfg.minimum_temperature) ∧
      ((updateHeatingDemand cfg states).max_demand_target_temperature = none →
        cmd.target_temperature = cfg.minimum_temperature) := by
  have htr : optStrTruthy cfg.heater_entity_id = true := by
    rw [hcfg]
    unfold optStrTruthy
    simp [hne]
  unfold heaterCommand
  rw [htr]
  simp only [if_true]
  refine ⟨_, rfl, rfl, ?_, ?_, ?_⟩
  · intro t hdem htgt
    rw [hdem, htgt]
    simp
  · intro hdem
    rw [hdem]
    simp
  · intro htgt
    rw [htgt]
    cases hdem : (updateHeatingDemand cfg states).is_heating_demanded <;> simp

/-- Claim C7, witness: the spec's scenario (trv1 at 18 targeting 21 and
heating, trv2 idle at target) with a configured heater yields mode
`"heat"` and target 21. -/
theorem heater_command_spec_witness :
    ∃ cmd, heaterCommand cfgH (updateHeatingDemand cfgH storeH) = some cmd ∧
      cmd.hvac_mode =
        (if (updateHeatingDemand cfgH storeH).is_heating_demanded then "heat"
          else "off") ∧
      (∀ t, (updateHeatingDemand cfgH storeH).is_heating_demanded = true →
        (updateHeatingDemand cfgH storeH).max_demand_target_temperature
          = some t →
        cmd.target_temperature = t) ∧
      ((updateHeatingDemand cfgH storeH).is_heating_demanded = false →
        cmd.target_temperature = cfgH.minimum_temperature) ∧
      ((updateHeatingDemand cfgH storeH).max_demand_target_temperature = none →
        cmd.target_temperature = cfgH.minimum_temperature) :=
  heater_command_spec cfgH storeH "climate.boiler" rfl (by decide)

/-- A `set_temperature` call is issued exactly when the commanded target
differs from the last-sent one. -/
theorem controlHeater_temp_call (ok1 ok2 : Bool) (s : DispatchState)
    (t : Rat) (m : String) :
    (controlHeater ok1 ok2 s t m).temp_call =
      decide (s.last_sent_target_temperature ≠ some t) := rfl

/-- A `set_hvac_mode` call is issued exactly when the commanded mode
differs from the last-sent one (the earlier temperature step never touches
the mode field). -/
theorem controlHeater_mode_call (ok1 ok2 : Bool) (s : DispatchState)
    (t : Rat) (m : String) :
    (controlHeater ok1 ok2 s t m).mode_call =
      decide (s.last_sent_hvac_mode ≠ some m) := by
  simp only [controlHeater]
  simp [apply_ite DispatchState.last_sent_hvac_mode]

/-- The last-sent temperature is updated exactly when a successful
`set_temperature` call was made. -/
theorem controlHeater_state_temp (ok1 ok2 : Bool) (s : DispatchState)
    (t : Rat) (m : String) :
    (controlHeater ok1 ok2 s t m).state.last_sent_target_temperature =
      if decide (s.last_sent_target_temperature ≠ some t) && ok1 then some t
      else s.last_sent_target_temperature := by
  simp only [controlHeater]
  simp [apply_ite DispatchState.last_sent_target_temperature]

/-- The last-sent mode is updated exactly when a successful
`set_hvac_mode` call was made. -/
theorem controlHeater_state_mode (ok1 ok2 : Bool) (s : DispatchState)
    (t : Rat) (m : String) :
    (controlHeater ok1 ok2 s t m).state.last_sent_hvac_mode =
      if decide (s.last_sent_hvac_mode ≠ some m) && ok2 then some m
      else s.last_sent_hvac_mode := by
  simp only [controlHeater]
  simp [apply_ite DispatchState.last_sent_hvac_mode]

/-- After a fully successful dispatch, the last-sent temperature equals
the commanded one. -/
theorem controlHeater_success_temp (s : DispatchState) (t : Rat)
    (m : String) :
    (controlHeater true true s t m).state.last_sent_target_temperature
      = some t := by
  rw [controlHeater_state_temp]
  by_cases h : s.last_sent_target_temperature = some t
  · simp [h]
  · simp [h]

/-- After a fully successful dispatch, the last-sent mode equals the
commanded one. -/
theorem controlHeater_success_mode (s : DispatchState) (t : Rat)
    (m : String) :
    (controlHeater true true s t m).state.last_sent_hvac_mode = some m := by
  rw [controlHeater_state_mode]
  by_cases h : s.last_sent_hvac_mode = some m
  · simp [h]
  · simp [h]

/-- Claim C8: each outbound call of the dispatcher fires exactly when the
commanded value differs from the corresponding last-sent value
(temperature checked first); on success the last-sent value becomes the
commanded one and on failure it is unchanged; after a fully successful
dispatch, re-dispatching the identical command issues no calls; and after
a failed call, re-dispatching the same command retries it. -/
theorem dispatcher_debounce (ok1 ok2 ok1' ok2' : Bool) (s : DispatchState)
    (t : Rat) (m : String) :
    ((controlHeater ok1 ok2 s t m).temp_call =
      decide (s.last_sent_target_temperature ≠ some t)) ∧
    ((controlHeater ok1 ok2 s t m).mode_call =
      decide (s.last_sent_hvac_mode ≠ some m)) ∧
    ((controlHeater ok1 ok2 s t m).state.last_sent_target_temperature =
      if (controlHeater ok1 ok2 s t m).temp_call && ok1 then some t
      else s.last_sent_target_temperature) ∧
    ((controlHeater ok1 ok2 s t m).state.last_sent_hvac_mode =
      if (controlHeater ok1 ok2 s t m).mode_call && ok2 then some m
      else s.last_sent_hvac_mode) ∧
    ((controlHeater ok1' ok2' (controlHeater true true s t m).state t
        m).temp_call = false) ∧
    ((controlHeater ok1' ok2' (controlHeater true true s t m).state t
        m).mode_call = false) ∧
    ((controlHeater ok1 ok2 s t m).temp_call = true → ok1 = false →
      (controlHeater ok1' ok2' (controlHeater ok1 ok2 s t m).state t
        m).temp_call = true) ∧
    ((controlHeater ok1 ok2 s t m).mode_call = true → ok2 = false →
      (controlHeater ok1' ok2' (controlHeater ok1 ok2 s t m).state t
        m).mode_call = true) := by
  refine ⟨controlHeater_temp_call ok1 ok2 s t m,
    controlHeater_mode_call ok1 ok2 s t m,
    by rw [controlHeater_state_temp, controlHeater_temp_call],
    by rw [controlHeater_state_mode, controlHeater_mode_call],
    ?_, ?_, ?_, ?_⟩
  · rw [controlHeater_temp_call, controlHeater_success_temp]
    simp
  · rw [controlHeater_mode_call, controlHeater_success_mode]
    simp
  · intro hcall hok
    subst hok
    rw [controlHeater_temp_call] at hcall ⊢
    rw [controlHeater_state_temp]
    simp only [Bool.and_false, if_false]
    exact hcall
  · intro hcall hok
    subst hok
    rw [controlHeater_mode_call] at hcall ⊢
    rw [controlHeater_state_mode]
    simp only [Bool.and_false, if_false]
    exact hcall

/-- Claim C8, witness: from a fresh debounce state, a dispatch whose
temperature call fails leaves the state unset, and the next dispatch of
the same command retries the temperature call. -/
theorem dispatcher_debounce_witness :
    (controlHeater false true
        { last_sent_target_temperature := none, last_sent_hvac_mode := none }
        21 "heat").temp_call = true ∧
    (controlHeater true true
        (controlHeater false true
          { last_sent_target_temperature := none, last_sent_hvac_mode := none }
          21 "heat").state 21 "heat").temp_call = true := by
  have h := dispatcher_debounce false true true true
    { last_sent_target_temperature := none, last_sent_hvac_mode := none }
    21 "heat"
  exact ⟨by decide, h.2.2.2.2.2.2.1 (by decide) rfl⟩

/-- Claim C3 (amended): provided at least one valid reading's delta
exceeds the `-100` sentinel, the leader the binary sensor selects is the
first reading whose delta dominates the whole list — the TRV with the
strictly largest delta, ties kept by the earlier-seen entity. -/
theorem leader_first_max (away : Bool) (aw : Rat) (states : StateStore)
    (l : List String)
    (h : ∃ r ∈ validReadings away aw states l, (-100 : Rat) < r.delta) :
    selectLeader (validReadings away aw states l)
        = firstMax (validReadings away aw states l) ∧
      (scanTrvs away aw states l).leader_entity_id
        = (firstMax (validReadings away aw states l)).map
            TrvReading.entity_id ∧
      (scanTrvs away aw states l).leader_current_temp
        = (firstMax (validReadings away aw states l)).map
            TrvReading.current ∧
      (scanTrvs away aw states l).leader_target_temp
        = (firstMax (validReadings away aw states l)).map
            TrvReading.target := by
  have hsel := selectLeader_eq_firstMax _ h
  have hld : (leadFold (-100, none) (validReadings away aw states l)).2
      = firstMax (validReadings away aw states l) := hsel
  refine ⟨hsel, ?_, ?_, ?_⟩ <;>
    · rw [scanTrvs_eq]
      simp only [toLoop]
      rw [hld]

/-- Claim C3, counterexample: a single valid TRV with delta `-150` (below
the `-100` sentinel) is the strictly largest of its list yet the
aggregator selects no leader at all. -/
theorem leader_first_max_cex :
    (validReadings false (12 : Rat) storeC3 cfgC3.trv_climate_entities).length
      = 1 ∧
    (firstMax
      (validReadings false (12 : Rat) storeC3
        cfgC3.trv_climate_entities)).isSome = true ∧
    selectLeader
      (validReadings false (12 : Rat) storeC3 cfgC3.trv_climate_entities)
      = none ∧
    (scanTrvs false (12 : Rat) storeC3
      cfgC3.trv_climate_entities).leader_entity_id = none ∧
    (updateHeatingDemand cfgC3 storeC3).max_demand_trv_entity_id = none := by
  with_unfolding_all decide

/-- Claim C3 (amended), witness: with deltas 2, 2, 3 for A, B, C in
configured order, the leader is C. -/
theorem leader_first_max_witness :
    ((validReadings false (12 : Rat) storeW3
      cfgW3.trv_climate_entities).map TrvReading.delta = [2, 2, 3]) ∧
    (scanTrvs false (12 : Rat) storeW3
      cfgW3.trv_climate_entities).leader_entity_id = some "climate.c" := by
  constructor
  · with_unfolding_all decide
  · have h :=
      (leader_first_max false 12 storeW3 cfgW3.trv_climate_entities
        (by with_unfolding_all decide)).2.1
    rw [h]
    with_unfolding_all decide

/-- Claim C4, counterexample: with equal deltas 3, 3 for P, Q in
configured order, the aggregator keeps the first-seen P, not the
last-seen Q that the claim names. -/
theorem leader_tie_cex :
    ((validReadings false (12 : Rat) storeC4
      cfgC4.trv_climate_entities).map TrvReading.delta = [3, 3]) ∧
    (updateHeatingDemand cfgC4 storeC4).max_demand_trv_entity_id
      = some "climate.p" ∧
    (updateHeatingDemand cfgC4 storeC4).max_demand_trv_entity_id
      ≠ some "climate.q" := by
  with_unfolding_all decide

/-- Claim C4 (amended): when two valid readings share the largest delta
(above the sentinel) and the earlier one is the first to attain it, the
aggregator's leader is the earlier-seen reading — ties are won by
first-seen, not last-seen, order. -/
theorem leader_tie_first (away : Bool) (aw : Rat) (states : StateStore)
    (l : List String) (i j : Nat)
    (hi : i < (validReadings away aw states l).length)
    (hj : j < (validReadings away aw states l).length)
    (_hij : i < j)
    (_heq : ((validReadings away aw states l).get ⟨i, hi⟩).delta
      = ((validReadings away aw states l).get ⟨j, hj⟩).delta)
    (htop : ∀ k (hk : k < (validReadings away aw states l).length),
      ((validReadings away aw states l).get ⟨k, hk⟩).delta
        ≤ ((validReadings away aw states l).get ⟨i, hi⟩).delta)
    (hfirst : ∀ k (hk : k < (validReadings away aw states l).length),
      k < i →
      ((validReadings away aw states l).get ⟨k, hk⟩).delta
        < ((validReadings away aw states l).get ⟨i, hi⟩).delta)
    (h100 : (-100 : Rat)
      < ((validReadings away aw states l).get ⟨i, hi⟩).delta) :
    (scanTrvs away aw states l).leader_entity_id
      = some ((validReadings away aw states l).get ⟨i, hi⟩).entity_id := by
  have hPi : (decide ((-100 : Rat)
        < ((validReadings away aw states l).get ⟨i, hi⟩).delta)
      && isTop (validReadings away aw states l)
        ((validReadings away aw states l).get ⟨i, hi⟩)) = true := by
    rw [Bool.and_eq_true]
    constructor
    · exact decide_eq_true h100
    · rw [isTop_iff]
      intro x hx
      obtain ⟨⟨k, hk⟩, hn⟩ := List.mem_iff_get.mp hx
      rw [← hn]
      exact htop k hk
  have hPk : ∀ k (hk : k < (validReadings away aw states l).length), k < i →
      (decide ((-100 : Rat)
          < ((validReadings away aw states l).get ⟨k, hk⟩).delta)
        && isTop (validReadings away aw states l)
          ((validReadings away aw states l).get ⟨k, hk⟩)) = false := by
    intro k hk hki
    have hT : isTop (validReadings away aw states l)
        ((validReadings away aw states l).get ⟨k, hk⟩) = false := by
      rw [Bool.eq_false_iff]
      intro hTT
      rw [isTop_iff] at hTT
      have hle := hTT ((validReadings away aw states l).get ⟨i, hi⟩)
        (List.get_mem _ _ _)
      exact absurd (hfirst k hk hki) (not_lt.mpr hle)
    rw [hT, Bool.and_false]
  have hfind := find?_eq_get
    (fun r => decide ((-100 : Rat) < r.delta)
      && isTop (validReadings away aw states l) r)
    (validReadings away aw states l) i hi hPi hPk
  have hsel : selectLeader (validReadings away aw states l)
      = some ((validReadings away aw states l).get ⟨i, hi⟩) := by
    rw [selectLeader_find]
    exact hfind
  rw [scanTrvs_eq]
  simp only [toLoop]
  rw [show (leadFold (-100, none) (validReadings away aw states l)).2
      = selectLeader (validReadings away aw states l) from rfl]
  rw [hsel]
  rfl

/-- Claim C4 (amended), witness: with equal deltas 2, 2 for X, Y, the
leader is the first-seen X. -/
theorem leader_tie_first_witness :
    ((validReadings false (12 : Rat) storeW4
      ["climate.x", "climate.y"]).map TrvReading.delta = [2, 2]) ∧
    (scanTrvs false (12 : Rat) storeW4
      ["climate.x", "climate.y"]).leader_entity_id = some "climate.x" := by
  constructor
  · with_unfolding_all decide
  · have h := leader_tie_first false 12 storeW4 ["climate.x", "climate.y"]
      0 1 (by with_unfolding_all decide) (by with_unfolding_all decide)
      (by with_unfolding_all decide) (by with_unfolding_all decide)
      (by with_unfolding_all decide) (by with_unfolding_all decide)
      (by with_unfolding_all decide)
    rw [h]
    with_unfolding_all decide

/-- When a valid TRV was found and the leader id is truthy, the recompute
publishes the scan's leader fields with the delta clamped at zero. -/
theorem updateHeatingDemand_pos_fields (cfg : HeatConfig)
    (states : StateStore)
    (hcond : ((scanTrvs (awayMode cfg states) cfg.away_temp states
          cfg.trv_climate_entities).valid_trv_found
        && optStrTruthy (scanTrvs (awayMode cfg states) cfg.away_temp states
          cfg.trv_climate_entities).leader_entity_id) = true) :
    (updateHeatingDemand cfg states).max_demand_delta
      = max 0 (scanTrvs (awayMode cfg states) cfg.away_temp states
          cfg.trv_climate_entities).max_delta ∧
    (updateHeatingDemand cfg states).max_demand_trv_entity_id
      = (scanTrvs (awayMode cfg states) cfg.away_temp states
          cfg.trv_climate_entities).leader_entity_id ∧
    (updateHeatingDemand cfg states).max_demand_current_temperature
      = (scanTrvs (awayMode cfg states) cfg.away_temp states
          cfg.trv_climate_entities).leader_current_temp ∧
    (updateHeatingDemand cfg states).max_demand_target_temperature
      = (scanTrvs (awayMode cfg states) cfg.away_temp states
          cfg.trv_climate_entities).leader_target_temp ∧
    (updateHeatingDemand cfg states).max_demand_trv_name
      = (scanTrvs (awayMode cfg states) cfg.away_temp states
          cfg.trv_climate_entities).leader_friendly_name := by
  simp only [updateHeatingDemand]
  rw [hcond]
  simp

/-- When no valid TRV was found or the leader id is falsy, the recompute
resets every leader field. -/
theorem updateHeatingDemand_neg_fields (cfg : HeatConfig)
    (states : StateStore)
    (hcond : ((scanTrvs (awayMode cfg states) cfg.away_temp states
          cfg.trv_climate_entities).valid_trv_found
        && optStrTruthy (scanTrvs (awayMode cfg states) cfg.away_temp states
          cfg.trv_climate_entities).leader_entity_id) = false) :
    (updateHeatingDemand cfg states).max_demand_delta = 0 ∧
    (updateHeatingDemand cfg states).max_demand_trv_entity_id = none ∧
    (updateHeatingDemand cfg states).max_demand_current_temperature = none ∧
    (updateHeatingDemand cfg states).max_demand_target_temperature = none ∧
    (updateHeatingDemand cfg states).max_demand_trv_name = none := by
  simp only [updateHeatingDemand]
  rw [hcond]
  simp

/-- Claim C2 (amended): when some valid reading's delta exceeds the `-100`
sentinel and every valid reading has a nonempty entity id, the recompute
publishes the selected leader's fields with `max_demand_delta =
max 0 (leader delta)`; and when no valid TRV exists at all, every leader
field is reset to empty/zero. -/
theorem leader_fields_populated (cfg : HeatConfig) (states : StateStore) :
    ((∃ r ∈ validReadings (awayMode cfg states) cfg.away_temp states
          cfg.trv_climate_entities, (-100 : Rat) < r.delta) →
      (∀ r ∈ validReadings (awayMode cfg states) cfg.away_temp states
          cfg.trv_climate_entities, r.entity_id ≠ "") →
      ∃ r, selectLeader (validReadings (awayMode cfg states) cfg.away_temp
            states cfg.trv_climate_entities) = some r ∧
        (updateHeatingDemand cfg states).max_demand_delta = max 0 r.delta ∧
        (updateHeatingDemand cfg states).max_demand_trv_entity_id
          = some r.entity_id ∧
        (updateHeatingDemand cfg states).max_demand_current_temperature
          = some r.current ∧
        (updateHeatingDemand cfg states).max_demand_target_temperature
          = some r.target ∧
        (updateHeatingDemand cfg states).max_demand_trv_name
          = r.friendly_name) ∧
    (validReadings (awayMode cfg states) cfg.away_temp states
        cfg.trv_climate_entities = [] →
      (updateHeatingDemand cfg states).max_demand_delta = 0 ∧
      (updateHeatingDemand cfg states).max_demand_trv_entity_id = none ∧
      (updateHeatingDemand cfg states).max_demand_current_temperature
        = none ∧
      (updateHeatingDemand cfg states).max_demand_target_temperature
        = none ∧
      (updateHeatingDemand cfg states).max_demand_trv_name = none) := by
  constructor
  · intro h1 h2
    have hsel : selectLeader (validReadings (awayMode cfg states)
          cfg.away_temp states cfg.trv_climate_entities)
        = firstMax (validReadings (awayMode cfg states) cfg.away_temp states
          cfg.trv_climate_entities) :=
      selectLeader_eq_firstMax _ h1
    obtain ⟨y, hy, hy100⟩ := h1
    have hne : validReadings (awayMode cfg states) cfg.away_temp states
        cfg.trv_climate_entities ≠ [] := by
      intro hnil
      rw [hnil] at hy
      exact List.not_mem_nil y hy
    obtain ⟨r, hfm⟩ := Option.isSome_iff_exists.mp (firstMax_isSome _ hne)
    have hr : selectLeader (validReadings (awayMode cfg states)
        cfg.away_temp states cfg.trv_climate_entities) = some r := by
      rw [hsel, hfm]
    have hmem : r ∈ validReadings (awayMode cfg states) cfg.away_temp states
        cfg.trv_climate_entities := firstMax_mem hfm
    have hFlead : (scanTrvs (awayMode cfg states) cfg.away_temp states
        cfg.trv_climate_entities).leader_entity_id = some r.entity_id := by
      rw [scanTrvs_eq]
      simp only [toLoop]
      rw [show (leadFold (-100, none) (validReadings (awayMode cfg states)
          cfg.away_temp states cfg.trv_climate_entities)).2
        = selectLeader (validReadings (awayMode cfg states) cfg.away_temp
          states cfg.trv_climate_entities) from rfl, hr]
      rfl
    have hFcur : (scanTrvs (awayMode cfg states) cfg.away_temp states
        cfg.trv_climate_entities).leader_current_temp = some r.current := by
      rw [scanTrvs_eq]
      simp only [toLoop]
      rw [show (leadFold (-100, none) (validReadings (awayMode cfg states)
          cfg.away_temp states cfg.trv_climate_entities)).2
        = selectLeader (validReadings (awayMode cfg states) cfg.away_temp
          states cfg.trv_climate_entities) from rfl, hr]
      rfl
    have hFtgt : (scanTrvs (awayMode cfg states) cfg.away_temp states
        cfg.trv_climate_entities).leader_target_temp = some r.target := by
      rw [scanTrvs_eq]
      simp only [toLoop]
      rw [show (leadFold (-100, none) (validReadings (awayMode cfg states)
          cfg.away_temp states cfg.trv_climate_entities)).2
        = selectLeader (validReadings (awayMode cfg states) cfg.away_temp
          states cfg.trv_climate_entities) from rfl, hr]
      rfl
    have hFname : (scanTrvs (awayMode cfg states) cfg.away_temp states
        cfg.trv_climate_entities).leader_friendly_name = r.friendly_name := by
      rw [scanTrvs_eq]
      simp only [toLoop]
      rw [show (leadFold (-100, none) (validReadings (awayMode cfg states)
          cfg.away_temp states cfg.trv_climate_entities)).2
        = selectLeader (validReadings (awayMode cfg states) cfg.away_temp
          states cfg.trv_climate_entities) from rfl, hr]
      rfl
    have hFmax : (scanTrvs (awayMode cfg states) cfg.away_temp states
        cfg.trv_climate_entities).max_delta = r.delta := by
      rw [scanTrvs_eq]
      simp only [toLoop]
      exact leadFold_fst_of_snd _ (-100, none) (fun r0 h0 => by cases h0) r hr
    have hFvalid : (scanTrvs (awayMode cfg states) cfg.away_temp states
        cfg.trv_climate_entities).valid_trv_found = true := by
      rw [scanTrvs_eq]
      simp only [toLoop]
      cases hcase : validReadings (awayMode cfg states) cfg.away_temp states
          cfg.trv_climate_entities with
      | nil => exact absurd hcase hne
      | cons a as => rfl
    have hcond : ((scanTrvs (awayMode cfg states) cfg.away_temp states
          cfg.trv_climate_entities).valid_trv_found
        && optStrTruthy (scanTrvs (awayMode cfg states) cfg.away_temp states
          cfg.trv_climate_entities).leader_entity_id) = true := by
      rw [hFvalid, hFlead]
      simp [optStrTruthy, h2 r hmem]
    obtain ⟨e1, e2, e3, e4, e5⟩ := updateHeatingDemand_pos_fields cfg states
      hcond
    refine ⟨r, hr, ?_, ?_, ?_, ?_, ?_⟩
    · rw [e1, hFmax]
    · rw [e2, hFlead]
    · rw [e3, hFcur]
    · rw [e4, hFtgt]
    · rw [e5, hFname]
  · intro hnil
    have hcond : ((scanTrvs (awayMode cfg states) cfg.away_temp states
          cfg.trv_climate_entities).valid_trv_found
        && optStrTruthy (scanTrvs (awayMode cfg states) cfg.away_temp states
          cfg.trv_climate_entities).leader_entity_id) = false := by
      rw [scanTrvs_eq]
      simp only [toLoop]
      rw [hnil]
      rfl
    exact updateHeatingDemand_neg_fields cfg states hcond

/-- Claim C2, counterexample: a single valid TRV whose delta equals the
`-100` sentinel exists, yet every leader field is reset — against the
claim's "only when no valid TRV exists are all leader fields reset". -/
theorem leader_fields_populated_cex :
    (validReadings false (12 : Rat) storeC2
      cfgC2.trv_climate_entities).length = 1 ∧
    (updateHeatingDemand cfgC2 storeC2).max_demand_trv_entity_id = none ∧
    (updateHeatingDemand cfgC2 storeC2).max_demand_current_temperature
      = none ∧
    (updateHeatingDemand cfgC2 storeC2).max_demand_target_temperature
      = none ∧
    (updateHeatingDemand cfgC2 storeC2).max_demand_delta = 0 := by
  with_unfolding_all decide

/-- Claim C2 (amended), witness: two valid TRVs with deltas 2 and 1 —
the leader's raw fields are published with the clamped delta. -/
theorem leader_fields_populated_witness :
    ∃ r, selectLeader (validReadings (awayMode cfgW2 storeW2)
          cfgW2.away_temp storeW2 cfgW2.trv_climate_entities) = some r ∧
      (updateHeatingDemand cfgW2 storeW2).max_demand_delta
        = max 0 r.delta ∧
      (updateHeatingDemand cfgW2 storeW2).max_demand_trv_entity_id
        = some r.entity_id ∧
      (updateHeatingDemand cfgW2 storeW2).max_demand_current_temperature
        = some r.current ∧
      (updateHeatingDemand cfgW2 storeW2).max_demand_target_temperature
        = some r.target ∧
      (updateHeatingDemand cfgW2 storeW2).max_demand_trv_name
        = r.friendly_name :=
  (leader_fields_populated cfgW2 storeW2).1 (by with_unfolding_all decide)
    (by with_unfolding_all decide)
